import Mathlib

/-!
Verification development for the roadrunner s3-storage plugin.

The Go sources are shallowly embedded: pure helpers become Lean functions,
the bucket registry becomes explicit state passing, the single-step and
composite S3 operations become functions from a registry, a failure oracle
for the backing store, and a store state to a new state, an event trace,
an optional error and a response record.  Machine integers (`int64`,
`int32`) stay well inside their ranges in everything proved here, so they
are modelled as `Int`; byte slices are lists of `Nat`.
-/

namespace S3Spec

/-! ## String helpers (mirroring the `strings` package functions used) -/

/-- `listPre nd l` is true when `nd` occurs at the head of `l`
(mirrors `strings.HasPrefix` on the underlying characters). -/
def listPre : List Char → List Char → Bool
  | [], _ => true
  | _ :: _, [] => false
  | a :: as, b :: bs => a == b && listPre as bs

/-- `listSub nd l` is true when `nd` occurs contiguously anywhere inside `l`
(mirrors `strings.Contains` on the underlying characters). -/
def listSub (nd : List Char) : List Char → Bool
  | [] => listPre nd []
  | c :: t => listPre nd (c :: t) || listSub nd t

/-- `strings.HasPrefix s pre` -/
def strHasPre (s p : String) : Bool := listPre p.data s.data

/-- `strings.Contains s sub` -/
def strHasSub (s sub : String) : Bool := listSub sub.data s.data

/-- `strings.TrimPrefix s pre` under the guard that the prefix is present
(the callers in `operations.go` check `strings.HasPrefix` first). -/
def trimPre (s p : String) : String := ⟨s.data.drop p.data.length⟩

/-! ## Error taxonomy (`errors.go`) -/

/-- The `ErrorCode` constants of `errors.go` lines 6-33.  These nine are all
the codes the taxonomy defines; in particular there is no partial-failure
code. -/
inductive ErrorCode where
  | bucketNotFound
  | fileNotFound
  | invalidConfig
  | s3Operation
  | permissionDenied
  | invalidPathname
  | bucketAlreadyExists
  | invalidVisibility
  | operationTimeout
deriving DecidableEq, Repr, Fintype

/-- A Go `error` value as the plugin produces them: a structured `S3Error`
carrying an `ErrorCode`, a plain `fmt.Errorf` string, or a `fmt.Errorf`
with `%w` wrapping an inner error. -/
inductive GoError where
  | s3err (code : ErrorCode) (message details : String)
  | generic (message : String)
  | wrapped (message : String) (inner : GoError)
deriving DecidableEq, Repr

/-- The `ErrorCode` found by unwrapping `%w` wrappers until a structured
`S3Error` is reached (what Go `errors.As` would recover), if any. -/
def rootCode : GoError → Option ErrorCode
  | .s3err c _ _ => some c
  | .generic _ => none
  | .wrapped _ e => rootCode e

/-- `NewS3Error` -/
def newS3Error (code : ErrorCode) (message details : String) : GoError :=
  .s3err code message details

/-- `NewBucketNotFoundError` -/
def newBucketNotFoundError (bucketName : String) : GoError :=
  newS3Error .bucketNotFound "Bucket not found" ("bucket: " ++ bucketName)

/-- `NewFileNotFoundError` -/
def newFileNotFoundError (pathname : String) : GoError :=
  newS3Error .fileNotFound "File not found" ("pathname: " ++ pathname)

/-- `NewInvalidConfigError` -/
def newInvalidConfigError (reason : String) : GoError :=
  newS3Error .invalidConfig "Invalid configuration" reason

/-- `NewS3OperationError`; the second argument is the wrapped store error
rendered as text in the Go code, kept structured here. -/
def newS3OperationError (operation : String) (errText : String) : GoError :=
  newS3Error .s3Operation ("S3 operation failed: " ++ operation) errText

/-- `NewInvalidPathnameError` -/
def newInvalidPathnameError (pathname reason : String) : GoError :=
  newS3Error .invalidPathname "Invalid pathname"
    ("pathname: " ++ pathname ++ ", reason: " ++ reason)

/-! ## Path validation (`operations.go` `validatePathname`, lines 717-732) -/

/-- `validatePathname` of `operations.go`: empty, leading slash and any
occurrence of the substring `..` are rejected, in that order.  The quoted
slash and dot-dot characters of the Go messages are kept, the surrounding
single-quote marks of the Go format strings are omitted. -/
def validatePathname (pathname : String) : Option GoError :=
  if pathname = "" then
    some (newInvalidPathnameError pathname "pathname cannot be empty")
  else if strHasPre pathname "/" then
    some (newInvalidPathnameError pathname "pathname cannot start with /")
  else if strHasSub pathname ".." then
    some (newInvalidPathnameError pathname "pathname cannot contain ..")
  else
    none

/-! ## Bucket configuration (`config.go`) -/

/-- `BucketConfig` of `config.go`.  The Go field `Prefix` is called `pfx`
here; credentials are inlined. -/
structure BucketConfig where
  region : String
  endpoint : String
  bucket : String
  pfx : String
  credKey : String
  credSecret : String
  credToken : String
  visibility : String
  maxConcurrentOperations : Int
  partSize : Int
  concurrency : Int
deriving DecidableEq, Repr

/-- `BucketConfig.Validate` of `config.go` lines 84-123: required-field
checks, visibility whitelist, then defaulting of visibility, capacity,
part size and concurrency.  The Go method mutates the receiver; here the
defaulted configuration is returned on success. -/
def BucketConfig.validate (bc : BucketConfig) : Except GoError BucketConfig :=
  if bc.region = "" then .error (.generic "region is required")
  else if bc.bucket = "" then .error (.generic "bucket name is required")
  else if bc.credKey = "" then .error (.generic "credentials.key is required")
  else if bc.credSecret = "" then .error (.generic "credentials.secret is required")
  else if bc.visibility ≠ "" ∧ bc.visibility ≠ "public" ∧ bc.visibility ≠ "private" then
    .error (.generic ("visibility must be public or private, got " ++ bc.visibility))
  else
    .ok { bc with
      visibility := if bc.visibility = "" then "private" else bc.visibility
      maxConcurrentOperations :=
        if bc.maxConcurrentOperations ≤ 0 then 100 else bc.maxConcurrentOperations
      partSize := if bc.partSize ≤ 0 then 5 * 1024 * 1024 else bc.partSize
      concurrency := if bc.concurrency ≤ 0 then 5 else bc.concurrency }

/-- `BucketConfig.GetVisibility` of `config.go` lines 126-131. -/
def BucketConfig.getVisibility (bc : BucketConfig) : String :=
  if bc.visibility = "public" then "public-read" else "private"

/-- `BucketConfig.GetFullPath` of `config.go` lines 134-139: the namespaced
storage key. -/
def BucketConfig.getFullPath (bc : BucketConfig) (pathname : String) : String :=
  if bc.pfx = "" then pathname else bc.pfx ++ pathname

/-- The key-stripping step of `ListObjects` (`operations.go` lines 661-664):
remove the configured prefix from a returned key when present. -/
def BucketConfig.stripKey (bc : BucketConfig) (key : String) : String :=
  if bc.pfx ≠ "" ∧ strHasPre key bc.pfx then trimPre key bc.pfx else key

/-! ## Bucket registry (`bucket_manager.go`)

The AWS client handle is runtime-only state with no observable pure
content; a `Bucket` here keeps the name and the (validated) configuration,
and the admission gate is identified by the bucket's registry name in the
event traces below.  The Go map is modelled as an association list with
unique keys; `assocFind` mirrors map lookup. -/

/-- `Bucket` of `bucket_manager.go` lines 31-43 (name and configuration;
client and semaphore channel are runtime handles). -/
structure Bucket where
  name : String
  config : BucketConfig
deriving DecidableEq, Repr

/-- `BucketManager` of `bucket_manager.go` lines 16-28: the name-to-bucket
mapping and the default bucket name (empty string = unset). -/
structure BucketManager where
  buckets : List (String × Bucket)
  defaultBucket : String
deriving DecidableEq, Repr

/-- Go map lookup over the association-list model. -/
def assocFind (k : String) : List (String × Bucket) → Option Bucket
  | [] => none
  | (n, b) :: t => if n = k then some b else assocFind k t

/-- `NewBucketManager`. -/
def newBucketManager : BucketManager := { buckets := [], defaultBucket := "" }

/-- `RegisterBucket` of `bucket_manager.go` lines 54-101: duplicate-name
check first, then configuration validation, then insertion.  AWS config
and client construction (`createAWSConfig`, `s3.NewFromConfig`) are
external I/O that produces runtime handles; `createAWSConfig` only fails
if loading the ambient AWS configuration fails, which is modelled as
succeeding.  Mutating registry calls return the post-state together with
the optional error, the error paths leaving the state unchanged exactly
as the Go early returns do. -/
def registerBucket (bm : BucketManager) (name : String) (cfg : BucketConfig) :
    BucketManager × Option GoError :=
  if (assocFind name bm.buckets).isSome then
    (bm, some (.generic ("bucket " ++ name ++ " already registered")))
  else
    match cfg.validate with
    | .error e => (bm, some (.wrapped "invalid bucket configuration: " e))
    | .ok c =>
      ({ bm with buckets := bm.buckets ++ [(name, { name := name, config := c })] }, none)

/-- `GetBucket` of `bucket_manager.go` lines 104-114. -/
def getBucket (bm : BucketManager) (name : String) : Except GoError Bucket :=
  match assocFind name bm.buckets with
  | some b => .ok b
  | none => .error (.generic ("bucket " ++ name ++ " not found"))

/-- `GetDefaultBucket` of `bucket_manager.go` lines 117-131. -/
def getDefaultBucket (bm : BucketManager) : Except GoError Bucket :=
  if bm.defaultBucket = "" then .error (.generic "no default bucket configured")
  else
    match assocFind bm.defaultBucket bm.buckets with
    | some b => .ok b
    | none => .error (.generic ("default bucket " ++ bm.defaultBucket ++ " not found"))

/-- `SetDefault` of `bucket_manager.go` lines 134-145. -/
def setDefault (bm : BucketManager) (name : String) : BucketManager × Option GoError :=
  if (assocFind name bm.buckets).isSome then
    ({ bm with defaultBucket := name }, none)
  else
    (bm, some (.generic ("bucket " ++ name ++ " not found")))

/-- `ListBuckets` of `bucket_manager.go` lines 148-158 (map iteration
order is arbitrary; the model returns insertion order). -/
def listBuckets (bm : BucketManager) : List String := bm.buckets.map (·.1)

/-- `RemoveBucket` of `bucket_manager.go` lines 167-183: the default-bucket
guard runs before the existence check. -/
def removeBucket (bm : BucketManager) (name : String) : BucketManager × Option GoError :=
  if name = bm.defaultBucket then
    (bm, some (.generic ("cannot remove default bucket " ++ name)))
  else if (assocFind name bm.buckets).isSome then
    ({ bm with buckets := bm.buckets.filter (fun kv => kv.1 ≠ name) }, none)
  else
    (bm, some (.generic ("bucket " ++ name ++ " not found")))

/-- `CloseAll` of `bucket_manager.go` lines 186-199: closes every gate and
resets the mapping to empty.  Note that `defaultBucket` is left as it
was. -/
def closeAll (bm : BucketManager) : BucketManager := { bm with buckets := [] }

/-- Registry invariant (b) of the data model: the default name, if set,
refers to an entry present in the mapping. -/
def defaultInv (bm : BucketManager) : Prop :=
  bm.defaultBucket ≠ "" → (assocFind bm.defaultBucket bm.buckets).isSome

instance (bm : BucketManager) : Decidable (defaultInv bm) := by
  unfold defaultInv; infer_instance

/-! ## The backing object store

The store is an external collaborator.  Its observable state is a map
from (store-bucket, key) to object; each network primitive may also fail
on demand, which is modelled by a failure oracle (`Backend`) so that
theorems can quantify over every pattern of store failures. -/

/-- An object held by the backing store. -/
structure S3Object where
  content : List Nat
  contentType : String
  acl : String
  etag : String
  lastModified : Int
deriving DecidableEq, Repr

/-- The store-side key: actual store bucket name and namespaced key. -/
abbrev ObjKey := String × String

/-- Observable state of the backing store plus the wall clock read by
`time.Now` (the clock does not advance during one operation). -/
structure S3State where
  objects : List (ObjKey × S3Object)
  now : Int
deriving DecidableEq, Repr

/-- Map lookup for the object store. -/
def objFind (k : ObjKey) : List (ObjKey × S3Object) → Option S3Object
  | [] => none
  | (k2, o) :: t => if k2 = k then some o else objFind k t

/-- Map insert-or-replace for the object store. -/
def objInsert (k : ObjKey) (o : S3Object) (l : List (ObjKey × S3Object)) :
    List (ObjKey × S3Object) :=
  (k, o) :: l.filter (fun kv => kv.1 ≠ k)

/-- Map erase for the object store. -/
def objErase (k : ObjKey) (l : List (ObjKey × S3Object)) : List (ObjKey × S3Object) :=
  l.filter (fun kv => kv.1 ≠ k)

/-- Store-level error signal, as the Go code classifies it with
`errors.As`: `types.NoSuchKey`, `types.NotFound`, or anything else. -/
inductive NetErr where
  | noSuchKey
  | notFound
  | other (msg : String)
deriving DecidableEq, Repr

/-- The error text the Go code embeds into `NewS3OperationError`. -/
def NetErr.text : NetErr → String
  | .noSuchKey => "NoSuchKey"
  | .notFound => "NotFound"
  | .other m => m

/-- An entry of a `ListObjectsV2` reply from the store. -/
structure S3ListEntry where
  key : String
  size : Int
  lastModified : Int
  etag : Option String
  storageClass : String
deriving DecidableEq, Repr

/-- A `ListObjectsV2` reply from the store. -/
structure S3ListReply where
  contents : List S3ListEntry
  commonPre : List String
  isTruncated : Bool
  nextToken : Option String
  keyCount : Int
deriving DecidableEq, Repr

/-- Failure oracle and external reply data for the backing store: which
calls fail (and how), what a presign or list call returns.  Each field is
keyed by the arguments of the corresponding network call. -/
structure Backend where
  putFails : String → String → Bool
  headFails : String → String → Bool
  getFails : String → String → Bool
  copyFails : String → String → String → String → Bool
  deleteFails : String → String → Bool
  aclFails : String → String → Bool
  presignFails : String → String → Bool
  presignURL : String → String → String
  listFails : String → Bool
  listReply : String → String → S3ListReply

/-- `PutObject` (via the upload manager): on success the object is stored
under the key with the supplied content, type and ACL, stamped with the
current time. -/
def putObject (be : Backend) (st : S3State) (b k : String) (obj : S3Object) :
    Except NetErr S3State :=
  if be.putFails b k then .error (.other "injected store failure")
  else .ok { st with objects := objInsert (b, k) obj st.objects }

/-- `HeadObject`: injected failure, missing key (`NotFound`), or the
object's metadata. -/
def headObject (be : Backend) (st : S3State) (b k : String) : Except NetErr S3Object :=
  if be.headFails b k then .error (.other "injected store failure")
  else
    match objFind (b, k) st.objects with
    | some o => .ok o
    | none => .error .notFound

/-- `GetObject`: injected failure, missing key (`NoSuchKey`), or the
object. -/
def getObject (be : Backend) (st : S3State) (b k : String) : Except NetErr S3Object :=
  if be.getFails b k then .error (.other "injected store failure")
  else
    match objFind (b, k) st.objects with
    | some o => .ok o
    | none => .error .noSuchKey

/-- `CopyObject`: injected failure, missing source (`NoSuchKey`), or the
destination receives a copy of the source content with the requested ACL
and a fresh timestamp. -/
def copyObject (be : Backend) (st : S3State) (sb sk db dk acl : String) :
    Except NetErr S3State :=
  if be.copyFails sb sk db dk then .error (.other "injected store failure")
  else
    match objFind (sb, sk) st.objects with
    | none => .error .noSuchKey
    | some o =>
      .ok { st with
        objects := objInsert (db, dk) { o with acl := acl, lastModified := st.now } st.objects }

/-- `DeleteObject`: injected failure or removal (S3 delete is idempotent,
deleting an absent key succeeds). -/
def deleteObject (be : Backend) (st : S3State) (b k : String) : Except NetErr S3State :=
  if be.deleteFails b k then .error (.other "injected store failure")
  else .ok { st with objects := objErase (b, k) st.objects }

/-- `PutObjectAcl`: injected failure, missing key (`NoSuchKey`), or the
object's ACL is replaced. -/
def putObjectAcl (be : Backend) (st : S3State) (b k acl : String) :
    Except NetErr S3State :=
  if be.aclFails b k then .error (.other "injected store failure")
  else
    match objFind (b, k) st.objects with
    | none => .error .noSuchKey
    | some o => .ok { st with objects := objInsert (b, k) { o with acl := acl } st.objects }

/-! ## Operation events

Each operation records the coordinator, admission-gate and network events
it performs, in order.  `beginOp`/`endOp` are `TrackOperation` and
`CompleteOperation` of `plugin.go` lines 217-224; `acquire`/`release`
carry the registry name of the bucket whose gate (semaphore channel) is
used. -/

inductive Event where
  | beginOp
  | endOp
  | acquire (bucket : String)
  | release (bucket : String)
  | netPut (b k : String)
  | netHead (b k : String)
  | netGet (b k : String)
  | netCopy (sb sk db dk : String)
  | netDelete (b k : String)
  | netPutAcl (b k : String)
  | netPresign (b k : String)
  | netList (b : String)
deriving DecidableEq, Repr

/-- Result of running one operation: post store state, event trace, the
returned Go error (if any) and the response record. -/
structure OpResult (ρ : Type) where
  state : S3State
  trace : List Event
  err : Option GoError
  resp : ρ
deriving Repr

/-! ## Content-type detection (`operations.go` `detectContentType`) -/

/-- The characters after the last dot of `l` (the whole list when no dot
is present), mirroring `pathname[strings.LastIndex(pathname, ".")+1:]`. -/
def afterLastDot (l : List Char) : List Char :=
  ((l.reverse.takeWhile (fun c => c ≠ '.')).reverse)

/-- The extension-to-type table of `operations.go` lines 739-756. -/
def contentTypeFor (ext : String) : Option String :=
  if ext = "jpg" then some "image/jpeg"
  else if ext = "jpeg" then some "image/jpeg"
  else if ext = "png" then some "image/png"
  else if ext = "gif" then some "image/gif"
  else if ext = "webp" then some "image/webp"
  else if ext = "svg" then some "image/svg+xml"
  else if ext = "pdf" then some "application/pdf"
  else if ext = "txt" then some "text/plain"
  else if ext = "html" then some "text/html"
  else if ext = "css" then some "text/css"
  else if ext = "js" then some "application/javascript"
  else if ext = "json" then some "application/json"
  else if ext = "xml" then some "application/xml"
  else if ext = "zip" then some "application/zip"
  else if ext = "mp4" then some "video/mp4"
  else if ext = "mp3" then some "audio/mpeg"
  else none

/-- `detectContentType` of `operations.go` lines 735-763 (the `content`
argument is unused in the Go code as well). -/
def detectContentType (pathname : String) (_content : List Nat) : String :=
  let ext : String := ⟨(afterLastDot pathname.data).map Char.toLower⟩
  (contentTypeFor ext).getD "application/octet-stream"

/-! ## Request and response records (`rpc.go`) -/

structure WriteRequest where
  bucket : String
  pathname : String
  content : List Nat
  config : List (String × String)
  visibility : String
deriving DecidableEq, Repr

structure WriteResponse where
  success : Bool := false
  pathname : String := ""
  size : Int := 0
  lastModified : Int := 0
deriving DecidableEq, Repr

structure ReadRequest where
  bucket : String
  pathname : String
deriving DecidableEq, Repr

structure ReadResponse where
  content : List Nat := []
  size : Int := 0
  mimeType : String := ""
  lastModified : Int := 0
deriving DecidableEq, Repr

structure DeleteRequest where
  bucket : String
  pathname : String
deriving DecidableEq, Repr

structure DeleteResponse where
  success : Bool := false
deriving DecidableEq, Repr

structure CopyRequest where
  sourceBucket : String
  sourcePathname : String
  destBucket : String
  destPathname : String
  config : List (String × String)
  visibility : String
deriving DecidableEq, Repr

structure CopyResponse where
  success : Bool := false
  pathname : String := ""
  size : Int := 0
  lastModified : Int := 0
deriving DecidableEq, Repr

structure MoveRequest where
  sourceBucket : String
  sourcePathname : String
  destBucket : String
  destPathname : String
  config : List (String × String)
  visibility : String
deriving DecidableEq, Repr

structure MoveResponse where
  success : Bool := false
  pathname : String := ""
  size : Int := 0
  lastModified : Int := 0
deriving DecidableEq, Repr

structure GetMetadataRequest where
  bucket : String
  pathname : String
deriving DecidableEq, Repr

structure GetMetadataResponse where
  size : Int := 0
  mimeType : String := ""
  lastModified : Int := 0
  visibility : String := ""
  etag : String := ""
deriving DecidableEq, Repr

structure SetVisibilityRequest where
  bucket : String
  pathname : String
  visibility : String
deriving DecidableEq, Repr

structure SetVisibilityResponse where
  success : Bool := false
deriving DecidableEq, Repr

structure GetPublicURLRequest where
  bucket : String
  pathname : String
  expiresIn : Int
deriving DecidableEq, Repr

structure GetPublicURLResponse where
  url : String := ""
  expiresAt : Int := 0
deriving DecidableEq, Repr

/-- `ListObjectsRequest`; the Go field `Prefix` is called `pfx` here. -/
structure ListObjectsRequest where
  bucket : String
  pfx : String
  delimiter : String
  maxKeys : Int
  continuationToken : String
deriving DecidableEq, Repr

structure ObjectInfo where
  key : String := ""
  size : Int := 0
  lastModified : Int := 0
  etag : String := ""
  storageClass : String := ""
deriving DecidableEq, Repr

structure ListObjectsResponse where
  objects : List ObjectInfo := []
  commonPre : List String := []
  isTruncated : Bool := false
  nextContinuationToken : String := ""
  keyCount : Int := 0
deriving DecidableEq, Repr

/-! ## Single-step operations (`operations.go`)

Every branch of the Go functions is reproduced, with the trace holding
the coordinator, gate and network events of that branch in execution
order (Go `defer`s run last-in-first-out at the end). -/

/-- The gate acquisitions `Copy` performs (`operations.go` lines 329-335):
always the source bucket's gate, and the destination bucket's gate only
when the request names differ. -/
def copyGates (req : CopyRequest) : List Event :=
  if req.sourceBucket = req.destBucket then [.acquire req.sourceBucket]
  else [.acquire req.sourceBucket, .acquire req.destBucket]

/-- The matching releases, in deferred (last-in-first-out) order. -/
def copyUngates (req : CopyRequest) : List Event :=
  if req.sourceBucket = req.destBucket then [.release req.sourceBucket]
  else [.release req.destBucket, .release req.sourceBucket]

/-- `Operations.Write` (`operations.go` lines 34-137). -/
def writeOp (bm : BucketManager) (be : Backend) (st : S3State) (req : WriteRequest) :
    OpResult WriteResponse :=
  match validatePathname req.pathname with
  | some e => { state := st, trace := [.beginOp, .endOp], err := some e, resp := {} }
  | none =>
    match getBucket bm req.bucket with
    | .error _ =>
      { state := st, trace := [.beginOp, .endOp],
        err := some (newBucketNotFoundError req.bucket), resp := {} }
    | .ok bucket =>
      let visibility := if req.visibility = "" then bucket.config.getVisibility else req.visibility
      let key := bucket.config.getFullPath req.pathname
      let contentType := detectContentType req.pathname req.content
      let obj : S3Object :=
        { content := req.content, contentType := contentType, acl := visibility,
          etag := "", lastModified := st.now }
      match putObject be st bucket.config.bucket key obj with
      | .error e =>
        { state := st,
          trace := [.beginOp, .acquire req.bucket, .netPut bucket.config.bucket key,
                    .release req.bucket, .endOp],
          err := some (newS3OperationError "upload" e.text), resp := {} }
      | .ok st2 =>
        match headObject be st2 bucket.config.bucket key with
        | .error _ =>
          { state := st2,
            trace := [.beginOp, .acquire req.bucket, .netPut bucket.config.bucket key,
                      .netHead bucket.config.bucket key, .release req.bucket, .endOp],
            err := none,
            resp := { success := true, pathname := req.pathname,
                      size := (req.content.length : Int), lastModified := st2.now } }
        | .ok o =>
          { state := st2,
            trace := [.beginOp, .acquire req.bucket, .netPut bucket.config.bucket key,
                      .netHead bucket.config.bucket key, .release req.bucket, .endOp],
            err := none,
            resp := { success := true, pathname := req.pathname,
                      size := (o.content.length : Int), lastModified := o.lastModified } }

/-- `Operations.Read` (`operations.go` lines 140-206).  Reading the body
stream from the received reply (`io.ReadAll`) happens in memory and is
modelled as succeeding. -/
def readOp (bm : BucketManager) (be : Backend) (st : S3State) (req : ReadRequest) :
    OpResult ReadResponse :=
  match validatePathname req.pathname with
  | some e => { state := st, trace := [.beginOp, .endOp], err := some e, resp := {} }
  | none =>
    match getBucket bm req.bucket with
    | .error _ =>
      { state := st, trace := [.beginOp, .endOp],
        err := some (newBucketNotFoundError req.bucket), resp := {} }
    | .ok bucket =>
      let key := bucket.config.getFullPath req.pathname
      match getObject be st bucket.config.bucket key with
      | .error e =>
        { state := st,
          trace := [.beginOp, .acquire req.bucket, .netGet bucket.config.bucket key,
                    .release req.bucket, .endOp],
          err := some (if e = .noSuchKey then newFileNotFoundError req.pathname
                       else newS3OperationError "download" e.text),
          resp := {} }
      | .ok o =>
        { state := st,
          trace := [.beginOp, .acquire req.bucket, .netGet bucket.config.bucket key,
                    .release req.bucket, .endOp],
          err := none,
          resp := { content := o.content, size := (o.content.length : Int),
                    mimeType := o.contentType, lastModified := o.lastModified } }

/-- `Operations.Delete` (`operations.go` lines 257-300). -/
def deleteOp (bm : BucketManager) (be : Backend) (st : S3State) (req : DeleteRequest) :
    OpResult DeleteResponse :=
  match validatePathname req.pathname with
  | some e => { state := st, trace := [.beginOp, .endOp], err := some e, resp := {} }
  | none =>
    match getBucket bm req.bucket with
    | .error _ =>
      { state := st, trace := [.beginOp, .endOp],
        err := some (newBucketNotFoundError req.bucket), resp := {} }
    | .ok bucket =>
      let key := bucket.config.getFullPath req.pathname
      match deleteObject be st bucket.config.bucket key with
      | .error e =>
        { state := st,
          trace := [.beginOp, .acquire req.bucket, .netDelete bucket.config.bucket key,
                    .release req.bucket, .endOp],
          err := some (newS3OperationError "delete" e.text), resp := {} }
      | .ok st2 =>
        { state := st2,
          trace := [.beginOp, .acquire req.bucket, .netDelete bucket.config.bucket key,
                    .release req.bucket, .endOp],
          err := none, resp := { success := true } }

/-- `Operations.Copy` (`operations.go` lines 303-390).  The destination
gate is acquired only when the destination bucket name differs from the
source bucket name; the follow-up `HeadObject` is best-effort: its
failure leaves size and timestamp at their zero values. -/
def copyOp (bm : BucketManager) (be : Backend) (st : S3State) (req : CopyRequest) :
    OpResult CopyResponse :=
  match validatePathname req.sourcePathname with
  | some e => { state := st, trace := [.beginOp, .endOp], err := some e, resp := {} }
  | none =>
    match validatePathname req.destPathname with
    | some e => { state := st, trace := [.beginOp, .endOp], err := some e, resp := {} }
    | none =>
      match getBucket bm req.sourceBucket with
      | .error _ =>
        { state := st, trace := [.beginOp, .endOp],
          err := some (newBucketNotFoundError req.sourceBucket), resp := {} }
      | .ok sourceBucket =>
        match getBucket bm req.destBucket with
        | .error _ =>
          { state := st, trace := [.beginOp, .endOp],
            err := some (newBucketNotFoundError req.destBucket), resp := {} }
        | .ok destBucket =>
          let gates := copyGates req
          let ungates := copyUngates req
          let sourceKey := sourceBucket.config.getFullPath req.sourcePathname
          let destKey := destBucket.config.getFullPath req.destPathname
          let visibility :=
            if req.visibility = "" then destBucket.config.getVisibility else req.visibility
          match copyObject be st sourceBucket.config.bucket sourceKey
              destBucket.config.bucket destKey visibility with
          | .error e =>
            { state := st,
              trace := [Event.beginOp] ++ gates ++
                [Event.netCopy sourceBucket.config.bucket sourceKey
                  destBucket.config.bucket destKey] ++ ungates ++ [Event.endOp],
              err := some (newS3OperationError "copy" e.text), resp := {} }
          | .ok st2 =>
            match headObject be st2 destBucket.config.bucket destKey with
            | .error _ =>
              { state := st2,
                trace := [Event.beginOp] ++ gates ++
                  [Event.netCopy sourceBucket.config.bucket sourceKey
                    destBucket.config.bucket destKey,
                   Event.netHead destBucket.config.bucket destKey] ++ ungates ++ [Event.endOp],
                err := none,
                resp := { success := true, pathname := req.destPathname } }
            | .ok o =>
              { state := st2,
                trace := [Event.beginOp] ++ gates ++
                  [Event.netCopy sourceBucket.config.bucket sourceKey
                    destBucket.config.bucket destKey,
                   Event.netHead destBucket.config.bucket destKey] ++ ungates ++ [Event.endOp],
                err := none,
                resp := { success := true, pathname := req.destPathname,
                          size := (o.content.length : Int), lastModified := o.lastModified } }

/-- The copy request `Move` builds from its own request
(`operations.go` lines 395-402). -/
def moveCopyReq (req : MoveRequest) : CopyRequest :=
  { sourceBucket := req.sourceBucket, sourcePathname := req.sourcePathname,
    destBucket := req.destBucket, destPathname := req.destPathname,
    config := req.config, visibility := req.visibility }

/-- The source-removal request `Move` builds from its own request
(`operations.go` lines 410-413). -/
def moveDelReq (req : MoveRequest) : DeleteRequest :=
  { bucket := req.sourceBucket, pathname := req.sourcePathname }

/-- `Operations.Move` (`operations.go` lines 393-432): run `Copy`, and if
it succeeded run `Delete` on the source; a delete failure is wrapped as
`copy succeeded but delete failed: %w`. -/
def moveOp (bm : BucketManager) (be : Backend) (st : S3State) (req : MoveRequest) :
    OpResult MoveResponse :=
  let c := copyOp bm be st (moveCopyReq req)
  match c.err with
  | some e => { state := c.state, trace := c.trace, err := some e, resp := {} }
  | none =>
    let d := deleteOp bm be c.state (moveDelReq req)
    match d.err with
    | some e =>
      { state := d.state, trace := c.trace ++ d.trace,
        err := some (.wrapped "copy succeeded but delete failed: " e), resp := {} }
    | none =>
      { state := d.state, trace := c.trace ++ d.trace, err := none,
        resp := { success := true, pathname := c.resp.pathname,
                  size := c.resp.size, lastModified := c.resp.lastModified } }

/-- `Operations.GetMetadata` (`operations.go` lines 435-488).  The
response's visibility is the constant `private` (line 485). -/
def getMetadataOp (bm : BucketManager) (be : Backend) (st : S3State)
    (req : GetMetadataRequest) : OpResult GetMetadataResponse :=
  match validatePathname req.pathname with
  | some e => { state := st, trace := [.beginOp, .endOp], err := some e, resp := {} }
  | none =>
    match getBucket bm req.bucket with
    | .error _ =>
      { state := st, trace := [.beginOp, .endOp],
        err := some (newBucketNotFoundError req.bucket), resp := {} }
    | .ok bucket =>
      let key := bucket.config.getFullPath req.pathname
      match headObject be st bucket.config.bucket key with
      | .error e =>
        { state := st,
          trace := [.beginOp, .acquire req.bucket, .netHead bucket.config.bucket key,
                    .release req.bucket, .endOp],
          err := some (if e = .noSuchKey ∨ e = .notFound then newFileNotFoundError req.pathname
                       else newS3OperationError "head object" e.text),
          resp := {} }
      | .ok o =>
        { state := st,
          trace := [.beginOp, .acquire req.bucket, .netHead bucket.config.bucket key,
                    .release req.bucket, .endOp],
          err := none,
          resp := { size := (o.content.length : Int), mimeType := o.contentType,
                    lastModified := o.lastModified, visibility := "private",
                    etag := o.etag } }

/-- `Operations.SetVisibility` (`operations.go` lines 491-547): pathname
validation, then the public/private whitelist, then the ACL call; every
ACL failure maps to the generic operation error. -/
def setVisibilityOp (bm : BucketManager) (be : Backend) (st : S3State)
    (req : SetVisibilityRequest) : OpResult SetVisibilityResponse :=
  match validatePathname req.pathname with
  | some e => { state := st, trace := [.beginOp, .endOp], err := some e, resp := {} }
  | none =>
    if req.visibility ≠ "public" ∧ req.visibility ≠ "private" then
      { state := st, trace := [.beginOp, .endOp],
        err := some (newS3Error .invalidVisibility
          "visibility must be public or private" req.visibility),
        resp := {} }
    else
      match getBucket bm req.bucket with
      | .error _ =>
        { state := st, trace := [.beginOp, .endOp],
          err := some (newBucketNotFoundError req.bucket), resp := {} }
      | .ok bucket =>
        let key := bucket.config.getFullPath req.pathname
        let acl := if req.visibility = "public" then "public-read" else "private"
        match putObjectAcl be st bucket.config.bucket key acl with
        | .error e =>
          { state := st,
            trace := [.beginOp, .acquire req.bucket, .netPutAcl bucket.config.bucket key,
                      .release req.bucket, .endOp],
            err := some (newS3OperationError "put object acl" e.text), resp := {} }
        | .ok st2 =>
          { state := st2,
            trace := [.beginOp, .acquire req.bucket, .netPutAcl bucket.config.bucket key,
                      .release req.bucket, .endOp],
            err := none, resp := { success := true } }

/-- `Operations.GetPublicURL` (`operations.go` lines 550-600).  Note: this
operation never touches the bucket's admission gate; with a zero expiry
it builds the URL locally, otherwise it performs the presign call, still
without gate acquisition. -/
def getPublicURLOp (bm : BucketManager) (be : Backend) (st : S3State)
    (req : GetPublicURLRequest) : OpResult GetPublicURLResponse :=
  match validatePathname req.pathname with
  | some e => { state := st, trace := [.beginOp, .endOp], err := some e, resp := {} }
  | none =>
    match getBucket bm req.bucket with
    | .error _ =>
      { state := st, trace := [.beginOp, .endOp],
        err := some (newBucketNotFoundError req.bucket), resp := {} }
    | .ok bucket =>
      let key := bucket.config.getFullPath req.pathname
      if req.expiresIn = 0 then
        let endpoint :=
          if bucket.config.endpoint = "" then
            "https://s3." ++ bucket.config.region ++ ".amazonaws.com"
          else bucket.config.endpoint
        { state := st, trace := [.beginOp, .endOp], err := none,
          resp := { url := endpoint ++ "/" ++ bucket.config.bucket ++ "/" ++ key } }
      else
        if be.presignFails bucket.config.bucket key then
          { state := st, trace := [.beginOp, .netPresign bucket.config.bucket key, .endOp],
            err := some (newS3OperationError "presign get object" "injected store failure"),
            resp := {} }
        else
          { state := st, trace := [.beginOp, .netPresign bucket.config.bucket key, .endOp],
            err := none,
            resp := { url := be.presignURL bucket.config.bucket key,
                      expiresAt := st.now + req.expiresIn } }

/-- `Operations.ListObjects` (`operations.go` lines 603-715): no pathname
validation, gate held around the network call, default page size 1000,
and the configured prefix stripped from every returned key and common
prefix.  The store's reply is oracle data keyed by the store bucket and
the computed full prefix. -/
def listObjectsOp (bm : BucketManager) (be : Backend) (st : S3State)
    (req : ListObjectsRequest) : OpResult ListObjectsResponse :=
  match getBucket bm req.bucket with
  | .error _ =>
    { state := st, trace := [.beginOp, .endOp],
      err := some (newBucketNotFoundError req.bucket), resp := {} }
  | .ok bucket =>
    let _maxKeys : Int := if req.maxKeys ≤ 0 then 1000 else req.maxKeys
    let fullPre := bucket.config.getFullPath req.pfx
    if be.listFails bucket.config.bucket then
      { state := st,
        trace := [.beginOp, .acquire req.bucket, .netList bucket.config.bucket,
                  .release req.bucket, .endOp],
        err := some (newS3OperationError "list objects" "injected store failure"),
        resp := {} }
    else
      let reply := be.listReply bucket.config.bucket fullPre
      { state := st,
        trace := [.beginOp, .acquire req.bucket, .netList bucket.config.bucket,
                  .release req.bucket, .endOp],
        err := none,
        resp :=
          { objects := reply.contents.map (fun e =>
              { key := bucket.config.stripKey e.key, size := e.size,
                lastModified := e.lastModified, etag := e.etag.getD "",
                storageClass := e.storageClass }),
            commonPre := reply.commonPre.map (fun p => bucket.config.stripKey p),
            isTruncated := reply.isTruncated,
            nextContinuationToken := reply.nextToken.getD "",
            keyCount := reply.keyCount } }

/-! ## Trace predicates -/

/-- The gate names acquired along a trace, in order. -/
def acqNames : List Event → List String
  | [] => []
  | .acquire b :: t => b :: acqNames t
  | _ :: t => acqNames t

/-- The gate names released along a trace, in order. -/
def relNames : List Event → List String
  | [] => []
  | .release b :: t => b :: relNames t
  | _ :: t => relNames t

/-- Strict acquire/release pairing: the releases are exactly the acquires,
unwound in reverse (last-in-first-out) order. -/
def gatePaired (tr : List Event) : Prop := acqNames tr = (relNames tr).reverse

/-- The trace starts with the coordinator begin event. -/
def opensWithBegin : List Event → Bool
  | .beginOp :: _ => true
  | _ => false

/-- The trace finishes with the coordinator end event. -/
def closesWithEnd : List Event → Bool
  | [] => false
  | [.endOp] => true
  | _ :: t => closesWithEnd t

/-- The coordinator begin/end bracket the whole trace. -/
def bracketed (tr : List Event) : Prop :=
  opensWithBegin tr = true ∧ closesWithEnd tr = true

/-- True when every network event of the trace happens while at least one
admission-gate slot is held (`d` counts the slots currently held). -/
def netsGated (d : Nat) : List Event → Bool
  | [] => true
  | .beginOp :: t => netsGated d t
  | .endOp :: t => netsGated d t
  | .acquire _ :: t => netsGated (d + 1) t
  | .release _ :: t => netsGated (d - 1) t
  | _ :: t => decide (0 < d) && netsGated d t

/-- Net change to the number of slots of bucket `b` held, over a trace. -/
def heldCount (b : String) : List Event → Int
  | [] => 0
  | .acquire b2 :: t => (if b2 = b then 1 else 0) + heldCount b t
  | .release b2 :: t => (if b2 = b then -1 else 0) + heldCount b t
  | _ :: t => heldCount b t

/-- Recognizes the source-removal network call. -/
def isNetDelete : Event → Bool
  | .netDelete _ _ => true
  | _ => false

/-- Recognizes any network call against the backing store. -/
def isNet : Event → Bool
  | .netPut _ _ => true
  | .netHead _ _ => true
  | .netGet _ _ => true
  | .netCopy _ _ _ _ => true
  | .netDelete _ _ => true
  | .netPutAcl _ _ => true
  | .netPresign _ _ => true
  | .netList _ => true
  | _ => false

/-- The trace performs at least one network call. -/
def hasNet (tr : List Event) : Bool := tr.any isNet

/-! ## Spec-side predicates used to state the claims -/

/-- The pathname fails validation with an `InvalidPathname`-coded
structured error. -/
def failsInvalidPath (p : String) : Prop :=
  ∃ m d, validatePathname p = some (.s3err .invalidPathname m d)

/-- `p` contains `..` as a full path segment: an occurrence of `..`
preceded by nothing or a slash and followed by nothing or a slash. -/
def hasDotDotSeg (p : String) : Prop :=
  ∃ pre post, p.data = pre ++ ('.' :: '.' :: post) ∧
    (pre = [] ∨ ∃ pre2, pre = pre2 ++ ['/']) ∧
    (post = [] ∨ ∃ post2, post = '/' :: post2)

/-! ## Concrete fixtures for witnesses and counterexamples -/

/-- A valid bucket configuration with a non-empty key prefix. -/
def cfgA : BucketConfig :=
  { region := "us-east-1", endpoint := "", bucket := "sb", pfx := "p/",
    credKey := "k", credSecret := "s", credToken := "",
    visibility := "private", maxConcurrentOperations := 2,
    partSize := 5, concurrency := 1 }

def bucketA : Bucket := { name := "b", config := cfgA }

/-- Registry with a single bucket `b` and no default. -/
def bmA : BucketManager := { buckets := [("b", bucketA)], defaultBucket := "" }

/-- Registry with a single bucket `b` which is also the default. -/
def bmD : BucketManager := { buckets := [("b", bucketA)], defaultBucket := "b" }

/-- A backend where every network call succeeds. -/
def backendNone : Backend :=
  { putFails := fun _ _ => false, headFails := fun _ _ => false,
    getFails := fun _ _ => false, copyFails := fun _ _ _ _ => false,
    deleteFails := fun _ _ => false, aclFails := fun _ _ => false,
    presignFails := fun _ _ => false, presignURL := fun b k => "presigned/" ++ b ++ "/" ++ k,
    listFails := fun _ => false,
    listReply := fun _ _ =>
      { contents := [], commonPre := [], isTruncated := false,
        nextToken := none, keyCount := 0 } }

/-- Backend where only the source-removal call fails. -/
def backendDeleteFails : Backend := { backendNone with deleteFails := fun _ _ => true }

/-- Backend where only the metadata lookup fails. -/
def backendHeadFails : Backend := { backendNone with headFails := fun _ _ => true }

/-- Store state holding one object under bucket `b`'s namespaced key for
pathname `a.txt`. -/
def stA : S3State :=
  { objects := [(("sb", "p/a.txt"),
      { content := [104, 105], contentType := "text/plain", acl := "public-read",
        etag := "tag1", lastModified := 5 })],
    now := 9 }

/-- A same-bucket move of `a.txt` to `c.txt`. -/
def moveReqA : MoveRequest :=
  { sourceBucket := "b", sourcePathname := "a.txt", destBucket := "b",
    destPathname := "c.txt", config := [], visibility := "" }

/-- The copy request `Move` derives from `moveReqA`. -/
def copyReqA : CopyRequest :=
  { sourceBucket := "b", sourcePathname := "a.txt", destBucket := "b",
    destPathname := "c.txt", config := [], visibility := "" }

/-- A write request against the fixture bucket. -/
def writeReqA : WriteRequest :=
  { bucket := "b", pathname := "d.png", content := [1, 2, 3], config := [],
    visibility := "" }

/-- A metadata request for the object present in `stA`. -/
def mdReqA : GetMetadataRequest := { bucket := "b", pathname := "a.txt" }

/-- A presigned-URL request with a one-minute expiry. -/
def urlReqA : GetPublicURLRequest := { bucket := "b", pathname := "a.txt", expiresIn := 60 }

/-! # Theorems -/

/-! ## List and string helper lemmas -/

theorem listPre_self_append (l r : List Char) : listPre l (l ++ r) = true := by
  induction l with
  | nil => rfl
  | cons a t ih => simp [listPre, ih]

theorem listSub_nil (hay : List Char) : listSub [] hay = true := by
  cases hay with
  | nil => rfl
  | cons c t => simp [listSub, listPre]

theorem listSub_of_append (nd pre post : List Char) :
    listSub nd (pre ++ (nd ++ post)) = true := by
  induction pre with
  | nil =>
    simp only [List.nil_append]
    cases nd with
    | nil => exact listSub_nil post
    | cons a t =>
      have h : listSub (a :: t) ((a :: t) ++ post) =
          (listPre (a :: t) (a :: (t ++ post)) || listSub (a :: t) (t ++ post)) := rfl
      rw [h]
      simp [listPre, listPre_self_append]
  | cons a t ih =>
    have h : listSub nd ((a :: t) ++ (nd ++ post)) =
        (listPre nd (a :: (t ++ (nd ++ post))) || listSub nd (t ++ (nd ++ post))) := rfl
    rw [h, ih, Bool.or_true]

theorem str_data_append (s t : String) : (s ++ t).data = s.data ++ t.data := rfl

theorem strHasPre_self_append (p s : String) : strHasPre (p ++ s) p = true := by
  simp [strHasPre, str_data_append, listPre_self_append]

theorem trimPre_self_append (p s : String) : trimPre (p ++ s) p = s := by
  simp only [trimPre, str_data_append]
  rw [List.drop_left]

theorem hasDotDotSeg_sub {p : String} (h : hasDotDotSeg p) : strHasSub p ".." = true := by
  rcases h with ⟨pre, post, hp, -, -⟩
  have h2 : p.data = pre ++ (['.', '.'] ++ post) := hp
  unfold strHasSub
  rw [show (".." : String).data = ['.', '.'] from rfl, h2]
  exact listSub_of_append _ _ _

/-! ## C6 and C7: path validation and key namespacing -/

/-- C6: `ValidatePath("")`, `ValidatePath("/x")` and `ValidatePath("a/../b")`
fail with an `InvalidPathname`-coded error, `ValidatePath("a/b.txt")`
succeeds, and the rejection covers every empty path, every path starting
with a slash and every path containing a `..` traversal segment. -/
theorem validate_pathname_spec :
    failsInvalidPath "" ∧ failsInvalidPath "/x" ∧ failsInvalidPath "a/../b" ∧
    validatePathname "a/b.txt" = none ∧
    ∀ p : String, (p = "" ∨ strHasPre p "/" = true ∨ hasDotDotSeg p) →
      failsInvalidPath p := by
  refine ⟨⟨_, _, rfl⟩, ⟨_, _, rfl⟩, ⟨_, _, rfl⟩, by decide, ?_⟩
  intro p h
  unfold failsInvalidPath validatePathname
  by_cases h1 : p = ""
  · simp only [h1, if_true]
    exact ⟨_, _, rfl⟩
  · simp only [h1, if_false]
    by_cases h2 : strHasPre p "/"
    · simp only [h2, if_true]
      exact ⟨_, _, rfl⟩
    · simp only [h2, if_false]
      by_cases h3 : strHasSub p ".."
      · simp only [h3, if_true]
        exact ⟨_, _, rfl⟩
      · exfalso
        rcases h with h | h | h
        · exact h1 h
        · exact h2 h
        · exact h3 (hasDotDotSeg_sub h)

/-- C6 witness: the coverage clause applied to a concrete traversal path. -/
theorem validate_pathname_spec_witness : failsInvalidPath "q/../r" := by
  refine validate_pathname_spec.2.2.2.2 "q/../r" (Or.inr (Or.inr ?_))
  exact ⟨['q', '/'], ['/', 'r'], by decide, Or.inr ⟨['q'], by decide⟩, Or.inr ⟨['r'], rfl⟩⟩

/-- C7: the namespaced key is the prefix prepended to the path (the path
itself when the prefix is empty), and stripping the prefix the way
enumeration does recovers the original path. -/
theorem fullkey_roundtrip (bc : BucketConfig) (p : String)
    (_h : validatePathname p = none) :
    bc.getFullPath p = (if bc.pfx = "" then p else bc.pfx ++ p) ∧
    bc.stripKey (bc.getFullPath p) = p := by
  refine ⟨rfl, ?_⟩
  unfold BucketConfig.stripKey BucketConfig.getFullPath
  by_cases hp : bc.pfx = ""
  · simp [hp]
  · simp [hp, strHasPre_self_append, trimPre_self_append]

/-- C7 witness at the fixture bucket configuration and a concrete path. -/
theorem fullkey_roundtrip_witness :
    cfgA.getFullPath "a.txt" = (if cfgA.pfx = "" then "a.txt" else cfgA.pfx ++ "a.txt") ∧
    cfgA.stripKey (cfgA.getFullPath "a.txt") = "a.txt" :=
  fullkey_roundtrip cfgA "a.txt" (by decide)

/-! ## Registry helper lemmas -/

theorem assocFind_append_of_some {k : String} {l : List (String × Bucket)} {b : Bucket}
    (h : assocFind k l = some b) (l2 : List (String × Bucket)) :
    assocFind k (l ++ l2) = some b := by
  induction l with
  | nil => simp [assocFind] at h
  | cons kv t ih =>
    obtain ⟨n, bb⟩ := kv
    by_cases hn : n = k
    · simpa [assocFind, hn] using h
    · simp only [assocFind, hn, if_false, List.cons_append] at h ⊢
      exact ih h

theorem assocFind_filter_ne {d n : String} (hdn : d ≠ n) (l : List (String × Bucket)) :
    assocFind d (l.filter (fun kv => kv.1 ≠ n)) = assocFind d l := by
  induction l with
  | nil => rfl
  | cons kv t ih =>
    obtain ⟨m, b⟩ := kv
    simp only [ne_eq, decide_not] at ih
    by_cases hm : m = n
    · subst hm
      have hmd : ¬ (m = d) := fun he => hdn he.symm
      simp [List.filter_cons, assocFind, hmd, ih]
    · simp [List.filter_cons, assocFind, hm, ih]

/-! ## C4: duplicate registration -/

/-- C4 (amended): a second `RegisterBucket` with an already-used name
fails — with a plain already-registered error, not one carrying the
`ErrBucketAlreadyExists` taxonomy code — and returns the registry state
completely unchanged, so the original bucket's settings survive. -/
theorem register_duplicate_rejected (bm : BucketManager) (name : String)
    (cfg : BucketConfig) (b : Bucket) (h : assocFind name bm.buckets = some b) :
    registerBucket bm name cfg =
      (bm, some (.generic ("bucket " ++ name ++ " already registered"))) := by
  unfold registerBucket
  rw [h]
  rfl

/-- C4 witness: re-registering the fixture bucket name is rejected and
leaves the registry as it was. -/
theorem register_duplicate_rejected_witness :
    registerBucket bmA "b" cfgA =
      (bmA, some (.generic ("bucket " ++ "b" ++ " already registered"))) :=
  register_duplicate_rejected bmA "b" cfgA bucketA (by decide)

/-- C4 counterexample to the claim as stated: the duplicate-registration
error is a plain formatted error; it is not a structured error carrying
the `BUCKET_ALREADY_EXISTS` code (that code exists in the taxonomy but is
never attached here). -/
theorem register_duplicate_error_kind_cex :
    (registerBucket bmA "b" cfgA).2 = some (GoError.generic "bucket b already registered") ∧
    ∀ m d : String, (registerBucket bmA "b" cfgA).2 ≠
      some (GoError.s3err ErrorCode.bucketAlreadyExists m d) := by
  constructor
  · decide
  · intro m d hc
    rw [show (registerBucket bmA "b" cfgA).2 =
      some (GoError.generic "bucket b already registered") from by decide] at hc
    exact GoError.noConfusion (Option.some.inj hc)

/-! ## C5: the default-bucket invariant -/

/-- C5 (amended): removing the designated default bucket fails and leaves
the registry untouched, with the default still resolvable; the invariant
that the default name, when set, refers to a present entry is preserved
by `RegisterBucket`, `SetDefault` and `RemoveBucket` — but not by
`CloseAll`, which empties the mapping while leaving the default name set
(see the counterexample). -/
theorem default_bucket_invariant :
    (∀ bm : BucketManager, defaultInv bm → bm.defaultBucket ≠ "" →
      (removeBucket bm bm.defaultBucket).1 = bm ∧
      (removeBucket bm bm.defaultBucket).2.isSome = true ∧
      ∃ b, getDefaultBucket bm = .ok b) ∧
    (∀ bm name cfg, defaultInv bm → defaultInv (registerBucket bm name cfg).1) ∧
    (∀ bm name, defaultInv bm → defaultInv (setDefault bm name).1) ∧
    (∀ bm name, defaultInv bm → defaultInv (removeBucket bm name).1) := by
  refine ⟨?_, ?_, ?_, ?_⟩
  · intro bm hinv hne
    obtain ⟨b, hb⟩ := Option.isSome_iff_exists.mp (hinv hne)
    refine ⟨?_, ?_, ⟨b, ?_⟩⟩
    · unfold removeBucket
      simp
    · unfold removeBucket
      simp
    · unfold getDefaultBucket
      simp only [hne, if_false, hb]
  · intro bm name cfg hinv
    unfold registerBucket
    by_cases hs : (assocFind name bm.buckets).isSome
    · simp [hs, hinv]
    · simp only [hs, Bool.false_eq_true, if_false]
      cases hv : cfg.validate with
      | error e => simpa using hinv
      | ok c =>
        intro hne
        simp only at hne ⊢
        obtain ⟨b, hb⟩ := Option.isSome_iff_exists.mp (hinv hne)
        rw [assocFind_append_of_some hb]
        rfl
  · intro bm name hinv
    unfold setDefault
    by_cases hs : (assocFind name bm.buckets).isSome
    · simp only [hs, if_true]
      intro _
      exact hs
    · simpa [hs] using hinv
  · intro bm name hinv
    unfold removeBucket
    by_cases h1 : name = bm.defaultBucket
    · simpa [h1] using hinv
    · simp only [h1, if_false]
      by_cases h2 : (assocFind name bm.buckets).isSome
      · simp only [h2, if_true]
        intro hne
        simp only at hne ⊢
        rw [assocFind_filter_ne (fun he => h1 he.symm) bm.buckets]
        exact hinv hne
      · simpa [h2] using hinv

/-- C5 witness: the fixture registry whose default is `b`. -/
theorem default_bucket_invariant_witness :
    (removeBucket bmD bmD.defaultBucket).1 = bmD ∧
    (removeBucket bmD bmD.defaultBucket).2.isSome = true ∧
    ∃ b, getDefaultBucket bmD = .ok b :=
  default_bucket_invariant.1 bmD (by decide) (by decide)

/-- C5 counterexample to the claim as stated: `CloseAll` empties the
mapping but keeps the default name, so the default-refers-to-an-entry
invariant does not survive it and the default no longer resolves. -/
theorem close_all_breaks_default_inv_cex :
    defaultInv bmD ∧ ¬ defaultInv (closeAll bmD) ∧
    getDefaultBucket (closeAll bmD) =
      .error (.generic ("default bucket " ++ "b" ++ " not found")) := by
  refine ⟨by decide, by decide, rfl⟩

/-! ## C9: metadata visibility is constant -/

/-- C9: every successful `GetMetadata` reports visibility `private`,
whatever ACL the object actually carries and whatever default visibility
the bucket is configured with (both are quantified over here). -/
theorem metadata_visibility_constant (bm : BucketManager) (be : Backend) (st : S3State)
    (req : GetMetadataRequest) (h : (getMetadataOp bm be st req).err = none) :
    (getMetadataOp bm be st req).resp.visibility = "private" := by
  revert h
  unfold getMetadataOp
  split
  · intro h; simp at h
  · split
    · intro h; simp at h
    · dsimp only
      split
      · intro h; simp at h
      · intro _; rfl

/-- C9 witness: the fixture object is stored with ACL `public-read`, yet
the metadata response says `private`. -/
theorem metadata_visibility_constant_witness :
    (getMetadataOp bmA backendNone stA mdReqA).resp.visibility = "private" :=
  metadata_visibility_constant bmA backendNone stA mdReqA rfl

/-! ## C8: store succeeds even when the follow-up lookup fails -/

/-- C8: when the upload succeeds and the follow-up `HeadObject` fails, the
write still reports success with the request pathname, the uploaded
content length as size, and the current time as last-modified; the head
failure is not surfaced as the operation's error. -/
theorem write_head_failure_best_known (bm : BucketManager) (be : Backend) (st : S3State)
    (req : WriteRequest) (bucket : Bucket)
    (hv : validatePathname req.pathname = none)
    (hb : getBucket bm req.bucket = .ok bucket)
    (hput : be.putFails bucket.config.bucket (bucket.config.getFullPath req.pathname) = false)
    (hhead : be.headFails bucket.config.bucket (bucket.config.getFullPath req.pathname) = true) :
    (writeOp bm be st req).err = none ∧
    (writeOp bm be st req).resp =
      { success := true, pathname := req.pathname,
        size := (req.content.length : Int), lastModified := st.now } := by
  unfold writeOp
  rw [hv, hb]
  simp only [putObject, headObject, hput, hhead, Bool.false_eq_true, if_false, if_true]
  exact ⟨trivial, trivial⟩

/-- C8 witness: concrete write against a backend whose head calls all
fail. -/
theorem write_head_failure_best_known_witness :
    (writeOp bmA backendHeadFails stA writeReqA).err = none ∧
    (writeOp bmA backendHeadFails stA writeReqA).resp =
      { success := true, pathname := writeReqA.pathname,
        size := (writeReqA.content.length : Int), lastModified := stA.now } :=
  write_head_failure_best_known bmA backendHeadFails stA writeReqA bucketA rfl rfl rfl rfl

/-! ## Copy and Delete case lemmas (shared by the Move claims) -/

theorem copyOp_cases (bm : BucketManager) (be : Backend) (st : S3State) (r : CopyRequest) :
    ((copyOp bm be st r).err = none ∧ (copyOp bm be st r).resp.pathname = r.destPathname ∧
      (copyOp bm be st r).resp.success = true) ∨
    ((copyOp bm be st r).err.isSome = true ∧ (copyOp bm be st r).state = st) := by
  unfold copyOp
  dsimp only
  repeat' split
  all_goals simp

theorem deleteOp_cases (bm : BucketManager) (be : Backend) (st : S3State) (r : DeleteRequest) :
    (deleteOp bm be st r).err = none ∨ (deleteOp bm be st r).state = st := by
  unfold deleteOp
  dsimp only
  repeat' split
  all_goals simp

theorem copyOp_no_netDelete (bm : BucketManager) (be : Backend) (st : S3State)
    (r : CopyRequest) :
    (copyOp bm be st r).trace.all (fun ev => !(isNetDelete ev)) = true := by
  by_cases hb : r.sourceBucket = r.destBucket
  all_goals
    simp only [copyOp, copyGates, copyUngates, hb, if_true, if_false]
    try dsimp only
    repeat' split
    all_goals simp [isNetDelete]

/-! ## C1 and C2: the Move state machine -/

/-- C2: `Move` is exactly copy-then-delete.  If the copy step fails, its
error is returned, the store state is untouched and no removal network
call appears in the trace.  If the copy succeeds and the removal fails,
the state is exactly the post-copy state (the copy is not rolled back)
and the wrapped removal error is returned.  If both steps succeed, the
response reports success with the destination pathname and the size and
timestamp produced by the copy step. -/
theorem move_two_step_semantics (bm : BucketManager) (be : Backend) (st : S3State)
    (req : MoveRequest) :
    (∀ e, (copyOp bm be st (moveCopyReq req)).err = some e →
      (moveOp bm be st req).err = some e ∧
      (moveOp bm be st req).state = st ∧
      (moveOp bm be st req).trace.all (fun ev => !(isNetDelete ev)) = true) ∧
    ((copyOp bm be st (moveCopyReq req)).err = none →
      ∀ e, (deleteOp bm be (copyOp bm be st (moveCopyReq req)).state (moveDelReq req)).err =
          some e →
        (moveOp bm be st req).err = some (.wrapped "copy succeeded but delete failed: " e) ∧
        (moveOp bm be st req).state = (copyOp bm be st (moveCopyReq req)).state) ∧
    ((copyOp bm be st (moveCopyReq req)).err = none →
      (deleteOp bm be (copyOp bm be st (moveCopyReq req)).state (moveDelReq req)).err = none →
        (moveOp bm be st req).err = none ∧
        (moveOp bm be st req).resp =
          { success := true, pathname := req.destPathname,
            size := (copyOp bm be st (moveCopyReq req)).resp.size,
            lastModified := (copyOp bm be st (moveCopyReq req)).resp.lastModified }) := by
  refine ⟨?_, ?_, ?_⟩
  · intro e hc
    have hstate : (copyOp bm be st (moveCopyReq req)).state = st := by
      rcases copyOp_cases bm be st (moveCopyReq req) with ⟨hn, -, -⟩ | ⟨-, hs⟩
      · rw [hc] at hn; cases hn
      · exact hs
    unfold moveOp
    dsimp only
    rw [hc]
    exact ⟨rfl, hstate, copyOp_no_netDelete bm be st (moveCopyReq req)⟩
  · intro hc e hd
    have hdstate :
        (deleteOp bm be (copyOp bm be st (moveCopyReq req)).state (moveDelReq req)).state =
          (copyOp bm be st (moveCopyReq req)).state := by
      rcases deleteOp_cases bm be (copyOp bm be st (moveCopyReq req)).state (moveDelReq req)
        with hn | hs
      · rw [hd] at hn; cases hn
      · exact hs
    unfold moveOp
    dsimp only
    rw [hc, hd]
    exact ⟨rfl, hdstate⟩
  · intro hc hd
    have hpath : (copyOp bm be st (moveCopyReq req)).resp.pathname =
        (moveCopyReq req).destPathname := by
      rcases copyOp_cases bm be st (moveCopyReq req) with ⟨-, hp, -⟩ | ⟨hs, -⟩
      · exact hp
      · rw [hc] at hs; cases hs
    unfold moveOp
    dsimp only
    rw [hc, hd]
    refine ⟨rfl, ?_⟩
    show ({ success := true, pathname := (copyOp bm be st (moveCopyReq req)).resp.pathname,
            size := (copyOp bm be st (moveCopyReq req)).resp.size,
            lastModified := (copyOp bm be st (moveCopyReq req)).resp.lastModified } :
          MoveResponse) = _
    rw [hpath]
    rfl

/-- C2 witness: a same-bucket move that fully succeeds at the fixture
state. -/
theorem move_two_step_semantics_witness :
    (moveOp bmA backendNone stA moveReqA).err = none ∧
    (moveOp bmA backendNone stA moveReqA).resp =
      { success := true, pathname := moveReqA.destPathname,
        size := (copyOp bmA backendNone stA (moveCopyReq moveReqA)).resp.size,
        lastModified := (copyOp bmA backendNone stA (moveCopyReq moveReqA)).resp.lastModified } :=
  (move_two_step_semantics bmA backendNone stA moveReqA).2.2 rfl rfl

/-- C1 (amended): when the copy step succeeds and the removal fails with
error `e`, `Move` returns a non-nil error — `e` wrapped under the message
`copy succeeded but delete failed: ` — rather than a structured error of
a dedicated partial-failure kind (the `ErrorCode` taxonomy defines no
such kind). -/
theorem move_partial_failure_wrapped_error (bm : BucketManager) (be : Backend) (st : S3State)
    (req : MoveRequest) (e : GoError)
    (hc : (copyOp bm be st (moveCopyReq req)).err = none)
    (hd : (deleteOp bm be (copyOp bm be st (moveCopyReq req)).state (moveDelReq req)).err =
      some e) :
    (moveOp bm be st req).err = some (.wrapped "copy succeeded but delete failed: " e) := by
  unfold moveOp
  dsimp only
  rw [hc, hd]

/-- C1 amended-claim witness at a failing-removal backend. -/
theorem move_partial_failure_wrapped_error_witness :
    (moveOp bmA backendDeleteFails stA moveReqA).err =
      some (.wrapped "copy succeeded but delete failed: "
        (newS3OperationError "delete" "injected store failure")) :=
  move_partial_failure_wrapped_error bmA backendDeleteFails stA moveReqA
    (newS3OperationError "delete" "injected store failure") rfl rfl

/-- C1 counterexample to the claim as stated: on a concrete
copy-succeeded/removal-failed run, the error `Move` returns is a wrapped
plain error whose underlying structured code is the generic
`S3_OPERATION_FAILED`; the taxonomy (`ErrorCode`, exactly nine kinds)
contains no distinct partial-failure kind that could be returned. -/
theorem move_partial_failure_not_taxonomy_kind_cex :
    (moveOp bmA backendDeleteFails stA moveReqA).err =
      some (GoError.wrapped "copy succeeded but delete failed: "
        (newS3OperationError "delete" "injected store failure")) ∧
    ((moveOp bmA backendDeleteFails stA moveReqA).err.map rootCode) =
      some (some ErrorCode.s3Operation) ∧
    Fintype.card ErrorCode = 9 := by
  refine ⟨rfl, rfl, by decide⟩

/-! ## C10: gate slots held during the copy network call -/

theorem heldCount_copyGates (req : CopyRequest) :
    heldCount req.sourceBucket (Event.beginOp :: copyGates req) = 1 ∧
    heldCount req.destBucket (Event.beginOp :: copyGates req) = 1 ∧
    ∀ b, heldCount b (Event.beginOp :: copyGates req) ≤ 1 := by
  unfold copyGates
  by_cases hb : req.sourceBucket = req.destBucket
  · simp only [hb, if_true]
    refine ⟨by simp [heldCount, hb], by simp [heldCount], ?_⟩
    intro b
    by_cases hdb : req.destBucket = b <;> simp [heldCount, hdb]
  · simp only [hb, if_false]
    have hba : req.destBucket ≠ req.sourceBucket := fun he => hb he.symm
    refine ⟨by simp [heldCount, hba], by simp [heldCount, hb], ?_⟩
    intro b
    by_cases hsb : req.sourceBucket = b
    · by_cases hdb : req.destBucket = b
      · exact absurd (hsb.trans hdb.symm) hb
      · simp [heldCount, hsb, hdb]
    · by_cases hdb : req.destBucket = b
      · simp [heldCount, hsb, hdb]
      · simp [heldCount, hsb, hdb]

/-- C10: whenever a copy reaches its network call, the events before that
call acquire exactly one slot of the source bucket's gate and exactly one
slot of the destination bucket's gate — the same single slot when the two
names coincide, never two slots of any one gate. -/
theorem copy_gate_single_slot (bm : BucketManager) (be : Backend) (st : S3State)
    (req : CopyRequest) (sb db : Bucket)
    (h1 : validatePathname req.sourcePathname = none)
    (h2 : validatePathname req.destPathname = none)
    (h3 : getBucket bm req.sourceBucket = .ok sb)
    (h4 : getBucket bm req.destBucket = .ok db) :
    ∃ post, (copyOp bm be st req).trace =
        (Event.beginOp :: copyGates req) ++
          (Event.netCopy sb.config.bucket (sb.config.getFullPath req.sourcePathname)
            db.config.bucket (db.config.getFullPath req.destPathname) :: post) ∧
      heldCount req.sourceBucket (Event.beginOp :: copyGates req) = 1 ∧
      heldCount req.destBucket (Event.beginOp :: copyGates req) = 1 ∧
      ∀ b, heldCount b (Event.beginOp :: copyGates req) ≤ 1 := by
  unfold copyOp
  rw [h1, h2, h3, h4]
  dsimp only
  obtain ⟨hs, hd, hall⟩ := heldCount_copyGates req
  split
  · exact ⟨copyUngates req ++ [Event.endOp], by simp, hs, hd, hall⟩
  · split
    · exact ⟨Event.netHead db.config.bucket (db.config.getFullPath req.destPathname) ::
        (copyUngates req ++ [Event.endOp]), by simp, hs, hd, hall⟩
    · exact ⟨Event.netHead db.config.bucket (db.config.getFullPath req.destPathname) ::
        (copyUngates req ++ [Event.endOp]), by simp, hs, hd, hall⟩

/-- C10 witness: a concrete same-bucket copy. -/
theorem copy_gate_single_slot_witness :
    ∃ post, (copyOp bmA backendNone stA copyReqA).trace =
        (Event.beginOp :: copyGates copyReqA) ++
          (Event.netCopy bucketA.config.bucket
            (bucketA.config.getFullPath copyReqA.sourcePathname)
            bucketA.config.bucket (bucketA.config.getFullPath copyReqA.destPathname) :: post) ∧
      heldCount copyReqA.sourceBucket (Event.beginOp :: copyGates copyReqA) = 1 ∧
      heldCount copyReqA.destBucket (Event.beginOp :: copyGates copyReqA) = 1 ∧
      ∀ b, heldCount b (Event.beginOp :: copyGates copyReqA) ≤ 1 :=
  copy_gate_single_slot bmA backendNone stA copyReqA bucketA bucketA rfl rfl rfl rfl

/-! ## C3: bracketing of the single-step operations -/

theorem writeOp_brackets (bm : BucketManager) (be : Backend) (st : S3State)
    (req : WriteRequest) :
    bracketed (writeOp bm be st req).trace ∧ gatePaired (writeOp bm be st req).trace ∧
    netsGated 0 (writeOp bm be st req).trace = true ∧
    ((acqNames (writeOp bm be st req).trace = [req.bucket] ∧
        hasNet (writeOp bm be st req).trace = true) ∨
      (acqNames (writeOp bm be st req).trace = [] ∧
        hasNet (writeOp bm be st req).trace = false)) := by
  unfold writeOp
  dsimp only
  repeat' split
  all_goals first
    | exact ⟨⟨rfl, rfl⟩, rfl, rfl, Or.inl ⟨rfl, rfl⟩⟩
    | exact ⟨⟨rfl, rfl⟩, rfl, rfl, Or.inr ⟨rfl, rfl⟩⟩

theorem readOp_brackets (bm : BucketManager) (be : Backend) (st : S3State)
    (req : ReadRequest) :
    bracketed (readOp bm be st req).trace ∧ gatePaired (readOp bm be st req).trace ∧
    netsGated 0 (readOp bm be st req).trace = true ∧
    ((acqNames (readOp bm be st req).trace = [req.bucket] ∧
        hasNet (readOp bm be st req).trace = true) ∨
      (acqNames (readOp bm be st req).trace = [] ∧
        hasNet (readOp bm be st req).trace = false)) := by
  unfold readOp
  dsimp only
  repeat' split
  all_goals first
    | exact ⟨⟨rfl, rfl⟩, rfl, rfl, Or.inl ⟨rfl, rfl⟩⟩
    | exact ⟨⟨rfl, rfl⟩, rfl, rfl, Or.inr ⟨rfl, rfl⟩⟩

theorem deleteOp_brackets (bm : BucketManager) (be : Backend) (st : S3State)
    (req : DeleteRequest) :
    bracketed (deleteOp bm be st req).trace ∧ gatePaired (deleteOp bm be st req).trace ∧
    netsGated 0 (deleteOp bm be st req).trace = true ∧
    ((acqNames (deleteOp bm be st req).trace = [req.bucket] ∧
        hasNet (deleteOp bm be st req).trace = true) ∨
      (acqNames (deleteOp bm be st req).trace = [] ∧
        hasNet (deleteOp bm be st req).trace = false)) := by
  unfold deleteOp
  dsimp only
  repeat' split
  all_goals first
    | exact ⟨⟨rfl, rfl⟩, rfl, rfl, Or.inl ⟨rfl, rfl⟩⟩
    | exact ⟨⟨rfl, rfl⟩, rfl, rfl, Or.inr ⟨rfl, rfl⟩⟩

theorem copyOp_brackets (bm : BucketManager) (be : Backend) (st : S3State)
    (req : CopyRequest) :
    bracketed (copyOp bm be st req).trace ∧ gatePaired (copyOp bm be st req).trace ∧
    netsGated 0 (copyOp bm be st req).trace = true ∧
    ((acqNames (copyOp bm be st req).trace =
        (if req.sourceBucket = req.destBucket then [req.sourceBucket]
          else [req.sourceBucket, req.destBucket]) ∧
        hasNet (copyOp bm be st req).trace = true) ∨
      (acqNames (copyOp bm be st req).trace = [] ∧
        hasNet (copyOp bm be st req).trace = false)) := by
  by_cases hb : req.sourceBucket = req.destBucket
  all_goals
    simp only [copyOp, copyGates, copyUngates, hb, if_true, if_false]
    try dsimp only
    repeat' split
    all_goals first
      | exact ⟨⟨rfl, rfl⟩, rfl, rfl, Or.inl ⟨rfl, rfl⟩⟩
      | exact ⟨⟨rfl, rfl⟩, rfl, rfl, Or.inr ⟨rfl, rfl⟩⟩

theorem getMetadataOp_brackets (bm : BucketManager) (be : Backend) (st : S3State)
    (req : GetMetadataRequest) :
    bracketed (getMetadataOp bm be st req).trace ∧
    gatePaired (getMetadataOp bm be st req).trace ∧
    netsGated 0 (getMetadataOp bm be st req).trace = true ∧
    ((acqNames (getMetadataOp bm be st req).trace = [req.bucket] ∧
        hasNet (getMetadataOp bm be st req).trace = true) ∨
      (acqNames (getMetadataOp bm be st req).trace = [] ∧
        hasNet (getMetadataOp bm be st req).trace = false)) := by
  unfold getMetadataOp
  dsimp only
  repeat' split
  all_goals first
    | exact ⟨⟨rfl, rfl⟩, rfl, rfl, Or.inl ⟨rfl, rfl⟩⟩
    | exact ⟨⟨rfl, rfl⟩, rfl, rfl, Or.inr ⟨rfl, rfl⟩⟩

theorem setVisibilityOp_brackets (bm : BucketManager) (be : Backend) (st : S3State)
    (req : SetVisibilityRequest) :
    bracketed (setVisibilityOp bm be st req).trace ∧
    gatePaired (setVisibilityOp bm be st req).trace ∧
    netsGated 0 (setVisibilityOp bm be st req).trace = true ∧
    ((acqNames (setVisibilityOp bm be st req).trace = [req.bucket] ∧
        hasNet (setVisibilityOp bm be st req).trace = true) ∨
      (acqNames (setVisibilityOp bm be st req).trace = [] ∧
        hasNet (setVisibilityOp bm be st req).trace = false)) := by
  unfold setVisibilityOp
  dsimp only
  repeat' split
  all_goals first
    | exact ⟨⟨rfl, rfl⟩, rfl, rfl, Or.inl ⟨rfl, rfl⟩⟩
    | exact ⟨⟨rfl, rfl⟩, rfl, rfl, Or.inr ⟨rfl, rfl⟩⟩

theorem listObjectsOp_brackets (bm : BucketManager) (be : Backend) (st : S3State)
    (req : ListObjectsRequest) :
    bracketed (listObjectsOp bm be st req).trace ∧
    gatePaired (listObjectsOp bm be st req).trace ∧
    netsGated 0 (listObjectsOp bm be st req).trace = true ∧
    ((acqNames (listObjectsOp bm be st req).trace = [req.bucket] ∧
        hasNet (listObjectsOp bm be st req).trace = true) ∨
      (acqNames (listObjectsOp bm be st req).trace = [] ∧
        hasNet (listObjectsOp bm be st req).trace = false)) := by
  unfold listObjectsOp
  dsimp only
  repeat' split
  all_goals first
    | exact ⟨⟨rfl, rfl⟩, rfl, rfl, Or.inl ⟨rfl, rfl⟩⟩
    | exact ⟨⟨rfl, rfl⟩, rfl, rfl, Or.inr ⟨rfl, rfl⟩⟩

theorem getPublicURLOp_nogate (bm : BucketManager) (be : Backend) (st : S3State)
    (req : GetPublicURLRequest) :
    bracketed (getPublicURLOp bm be st req).trace ∧
    acqNames (getPublicURLOp bm be st req).trace = [] ∧
    relNames (getPublicURLOp bm be st req).trace = [] := by
  unfold getPublicURLOp
  dsimp only
  repeat' split
  all_goals exact ⟨⟨rfl, rfl⟩, rfl, rfl⟩

/-- C3 (amended): on every execution path, every single-step operation
brackets its work between the coordinator's begin and end events.  Store,
fetch, remove, duplicate, inspect, set-visibility and enumerate pair
every gate acquisition with a release, and whenever they perform a
network call the gates they acquired are exactly the target bucket's —
the request's bucket name for the single-bucket operations, the source
(and, when distinct, the destination) names for duplicate — with the
call made while a slot is held; paths with no network call acquire no
gate at all.  Mint-url, however, never touches any admission gate: its
presign network call runs without gate acquisition (see the
counterexample). -/
theorem single_step_bracketing (bm : BucketManager) (be : Backend) (st : S3State)
    (q1 : WriteRequest) (q2 : ReadRequest) (q3 : DeleteRequest) (q4 : CopyRequest)
    (q5 : GetMetadataRequest) (q6 : SetVisibilityRequest) (q7 : ListObjectsRequest)
    (q8 : GetPublicURLRequest) :
    (bracketed (writeOp bm be st q1).trace ∧ gatePaired (writeOp bm be st q1).trace ∧
      netsGated 0 (writeOp bm be st q1).trace = true ∧
      ((acqNames (writeOp bm be st q1).trace = [q1.bucket] ∧
          hasNet (writeOp bm be st q1).trace = true) ∨
        (acqNames (writeOp bm be st q1).trace = [] ∧
          hasNet (writeOp bm be st q1).trace = false))) ∧
    (bracketed (readOp bm be st q2).trace ∧ gatePaired (readOp bm be st q2).trace ∧
      netsGated 0 (readOp bm be st q2).trace = true ∧
      ((acqNames (readOp bm be st q2).trace = [q2.bucket] ∧
          hasNet (readOp bm be st q2).trace = true) ∨
        (acqNames (readOp bm be st q2).trace = [] ∧
          hasNet (readOp bm be st q2).trace = false))) ∧
    (bracketed (deleteOp bm be st q3).trace ∧ gatePaired (deleteOp bm be st q3).trace ∧
      netsGated 0 (deleteOp bm be st q3).trace = true ∧
      ((acqNames (deleteOp bm be st q3).trace = [q3.bucket] ∧
          hasNet (deleteOp bm be st q3).trace = true) ∨
        (acqNames (deleteOp bm be st q3).trace = [] ∧
          hasNet (deleteOp bm be st q3).trace = false))) ∧
    (bracketed (copyOp bm be st q4).trace ∧ gatePaired (copyOp bm be st q4).trace ∧
      netsGated 0 (copyOp bm be st q4).trace = true ∧
      ((acqNames (copyOp bm be st q4).trace =
          (if q4.sourceBucket = q4.destBucket then [q4.sourceBucket]
            else [q4.sourceBucket, q4.destBucket]) ∧
          hasNet (copyOp bm be st q4).trace = true) ∨
        (acqNames (copyOp bm be st q4).trace = [] ∧
          hasNet (copyOp bm be st q4).trace = false))) ∧
    (bracketed (getMetadataOp bm be st q5).trace ∧
      gatePaired (getMetadataOp bm be st q5).trace ∧
      netsGated 0 (getMetadataOp bm be st q5).trace = true ∧
      ((acqNames (getMetadataOp bm be st q5).trace = [q5.bucket] ∧
          hasNet (getMetadataOp bm be st q5).trace = true) ∨
        (acqNames (getMetadataOp bm be st q5).trace = [] ∧
          hasNet (getMetadataOp bm be st q5).trace = false))) ∧
    (bracketed (setVisibilityOp bm be st q6).trace ∧
      gatePaired (setVisibilityOp bm be st q6).trace ∧
      netsGated 0 (setVisibilityOp bm be st q6).trace = true ∧
      ((acqNames (setVisibilityOp bm be st q6).trace = [q6.bucket] ∧
          hasNet (setVisibilityOp bm be st q6).trace = true) ∨
        (acqNames (setVisibilityOp bm be st q6).trace = [] ∧
          hasNet (setVisibilityOp bm be st q6).trace = false))) ∧
    (bracketed (listObjectsOp bm be st q7).trace ∧
      gatePaired (listObjectsOp bm be st q7).trace ∧
      netsGated 0 (listObjectsOp bm be st q7).trace = true ∧
      ((acqNames (listObjectsOp bm be st q7).trace = [q7.bucket] ∧
          hasNet (listObjectsOp bm be st q7).trace = true) ∨
        (acqNames (listObjectsOp bm be st q7).trace = [] ∧
          hasNet (listObjectsOp bm be st q7).trace = false))) ∧
    (bracketed (getPublicURLOp bm be st q8).trace ∧
      acqNames (getPublicURLOp bm be st q8).trace = [] ∧
      relNames (getPublicURLOp bm be st q8).trace = []) :=
  ⟨writeOp_brackets bm be st q1, readOp_brackets bm be st q2, deleteOp_brackets bm be st q3,
    copyOp_brackets bm be st q4, getMetadataOp_brackets bm be st q5,
    setVisibilityOp_brackets bm be st q6, listObjectsOp_brackets bm be st q7,
    getPublicURLOp_nogate bm be st q8⟩

/-- C3 counterexample to the claim as stated: a concrete presigned-URL
request performs its network call with no gate acquisition whatsoever —
mint-url does not acquire the bucket's admission gate. -/
theorem mint_url_no_gate_cex :
    (getPublicURLOp bmA backendNone stA urlReqA).trace =
      [Event.beginOp, Event.netPresign "sb" "p/a.txt", Event.endOp] ∧
    acqNames (getPublicURLOp bmA backendNone stA urlReqA).trace = [] :=
  ⟨rfl, rfl⟩

end S3Spec
